import Mathlib

/-!
Shallow embedding of the nostr-mcp repository (TypeScript) in Lean 4.

The repository wraps a Nostr client library behind MCP tool handlers.  The
definitions below translate, from the source, the pure post-fetch processing
of each operation:

* `getReplies` / `getLatestPosts` (src/nostr-client.ts): map fetched events to
  plain records and sort them with the comparator
  `(b.created_at ?? 0) - (a.created_at ?? 0)`.
* `getUnansweredComments` (src/index.ts, lines 620-703): partition the fetched
  kind-1 events into "ours" and "others" by signer pubkey, collect ids from
  the signer's `["e", id, *, "reply"]` tags, and return the other-authored
  events whose id was not collected.
* `postComment` (src/nostr-client.ts, lines 141-198): NIP-10 tag construction
  with `parentId ?? rootId` defaulting.
* `updateProfileMetadata` (src/nostr-client.ts, lines 257-330): read-merge of
  the existing profile with the caller-supplied fields via a JS object spread
  `{...existingMetadata, ...metadata}`.
* `sendZap` (src/nostr-client.ts, lines 207-249): recipient resolution and
  error wrapping.
* The zod validation schemas of src/types.ts (`GetRepliesSchema`,
  `GetUnansweredCommentsSchema`) and the fetch-filter construction.

Relay I/O, signing and transport are delegated to external libraries by the
repository; accordingly the fetched event set, the resolution outcome and the
signing results appear here as explicit inputs.
-/

/-- A fetched Nostr event as consumed by the client wrapper (NDKEvent fields
that the repository reads): id, author pubkey, content, optional creation
timestamp, and the tag list (each tag an ordered list of strings). -/
structure NDKEventIn where
  id : String
  pubkey : String
  content : String
  created_at : Option Nat
  tags : List (List String)
deriving DecidableEq

/-- Result record of `getReplies` (interface `ReplyNote` in src/types.ts). -/
structure ReplyNote where
  id : String
  pubkey : String
  content : String
  created_at : Option Nat
deriving DecidableEq

/-- Result record of `getLatestPosts` (interface `LatestPost` in
src/types.ts; its fields coincide with `ReplyNote`). -/
structure LatestPost where
  id : String
  pubkey : String
  content : String
  created_at : Option Nat
deriving DecidableEq

/-- Result record of `getUnansweredComments` (interface `UnansweredComment`
in src/types.ts; the optional `parentId` field is never set by the code). -/
structure UnansweredComment where
  id : String
  pubkey : String
  content : String
  created_at : Option Nat
  tags : List (List String)
  rootId : String
deriving DecidableEq

/-- The sort key `x ?? 0` used by every comparator in the repository:
a missing `created_at` is treated as timestamp `0`. -/
def tsKey (x : Option Nat) : Nat := x.getD 0

/-- The ordering realised by the JS comparator
`(b.created_at ?? 0) - (a.created_at ?? 0)`: an element comes no later than
another when its key is no smaller (newest first). -/
def newestFirst {α : Type} (key : α → Nat) (a b : α) : Prop := key b ≤ key a

instance {α : Type} (key : α → Nat) : DecidableRel (newestFirst key) :=
  fun a b => Nat.decLe (key b) (key a)

instance {α : Type} (key : α → Nat) : IsTotal α (newestFirst key) :=
  ⟨fun a b => Nat.le_total (key b) (key a)⟩

instance {α : Type} (key : α → Nat) : IsTrans α (newestFirst key) :=
  ⟨fun _ _ _ h1 h2 => Nat.le_trans h2 h1⟩

/-- Model of `Array.prototype.sort` with the newest-first comparator: a stable
sort producing a permutation ordered by descending key. -/
def jsSortNewestFirst {α : Type} (key : α → Nat) (xs : List α) : List α :=
  List.insertionSort (newestFirst key) xs

/-- Post-fetch processing of `NostrClient.getReplies`
(src/nostr-client.ts, lines 482-489): map each fetched event to a `ReplyNote`
and sort by `(b.created_at ?? 0) - (a.created_at ?? 0)`. -/
def getReplies (events : List NDKEventIn) : List ReplyNote :=
  jsSortNewestFirst (fun r => tsKey r.created_at)
    (events.map (fun ev =>
      { id := ev.id, pubkey := ev.pubkey, content := ev.content,
        created_at := ev.created_at }))

/-- Post-fetch processing of `NostrClient.getLatestPosts`
(src/nostr-client.ts, lines 360-367): identical mapping and sort, producing
`LatestPost` records. -/
def getLatestPosts (events : List NDKEventIn) : List LatestPost :=
  jsSortNewestFirst (fun r => tsKey r.created_at)
    (events.map (fun ev =>
      { id := ev.id, pubkey := ev.pubkey, content := ev.content,
        created_at := ev.created_at }))

/-- A relay fetch filter as built by the repository: `kinds`, the `#e` tag
values, and an optional `limit` forwarded to the relays. -/
structure FetchFilter where
  kinds : List Nat
  etags : List String
  limit : Option Nat
deriving DecidableEq

/-- JS truthiness of the `if (limit)` guard: the `limit` field is set on the
filter only when the value is present and non-zero. -/
def jsTruthyLimit (limit : Option Nat) : Option Nat :=
  match limit with
  | some l => if l = 0 then none else some l
  | none => none

/-- Fetch filter built by `NostrClient.getReplies`
(src/nostr-client.ts, lines 467-474): `{ kinds: [1], "#e": [eventId] }`, with
`limit` added only under `if (limit)`.  No default limit is applied. -/
def buildRepliesFilter (eventId : String) (limit : Option Nat) : FetchFilter :=
  { kinds := [1], etags := [eventId], limit := jsTruthyLimit limit }

/-- Fetch filter built by `NostrClient.getUnansweredComments`
(src/index.ts, lines 636-642): same shape as the replies filter; again no
default limit is applied when the caller supplies none. -/
def buildUnansweredCommentsFilter (eventId : String) (limit : Option Nat) :
    FetchFilter :=
  { kinds := [1], etags := [eventId], limit := jsTruthyLimit limit }

/-- One character of the `/^[0-9a-fA-F]{64}$/i` identifier pattern. -/
def isHexDigit (c : Char) : Bool :=
  c.isDigit || (('a') ≤ c && c ≤ ('f')) || (('A') ≤ c && c ≤ ('F'))

/-- The 64-character hexadecimal identifier pattern of src/types.ts. -/
def isHex64 (s : String) : Bool :=
  (s.length == 64) && s.toList.all isHexDigit

/-- zod check `z.number().int().min(1).max(500)` applied to a supplied
`limit`.  The JSON number is modelled as a rational; `.int()` is the
requirement that the denominator be 1. -/
def checkLimitNumber (q : Rat) : Bool :=
  (q.den == 1) && decide ((1 : Rat) ≤ q) && decide (q ≤ (500 : Rat))

/-- `GetRepliesSchema.safeParse` success (src/types.ts, lines 100-105):
`eventId` must match the 64-hex pattern and `limit`, when present, must be an
integer between 1 and 500. -/
def checkGetRepliesArgs (eventId : String) (limit : Option Rat) : Bool :=
  isHex64 eventId &&
    (match limit with
     | none => true
     | some q => checkLimitNumber q)

/-- `GetUnansweredCommentsSchema.safeParse` success (src/types.ts, lines
133-138); the shape coincides with `GetRepliesSchema`. -/
def checkGetUnansweredCommentsArgs (eventId : String) (limit : Option Rat) :
    Bool :=
  isHex64 eventId &&
    (match limit with
     | none => true
     | some q => checkLimitNumber q)

/-- The final mapping of `getUnansweredComments` (src/index.ts, lines
684-691): each surviving event is returned with its own fields and
`rootId := eventId` (the queried note id). -/
def mkUnansweredComment (eventId : String) (ev : NDKEventIn) :
    UnansweredComment :=
  { id := ev.id, pubkey := ev.pubkey, content := ev.content,
    created_at := ev.created_at, tags := ev.tags, rootId := eventId }

/-- The tag predicate of the `repliedIds` scan (src/index.ts, lines 664-668):
`tag[0] === "e" && tag.length > 3 && tag[3] === "reply"`. -/
def isReplyMarkerTag (tag : List String) : Bool :=
  (tag[0]? == some ("e")) && decide (3 < tag.length) &&
    (tag[3]? == some ("reply"))

/-- The `repliedIds` accumulation (src/index.ts, lines 662-670): for each of
the signer's own comments, push `tag[1]` of every tag matching
`isReplyMarkerTag`, in order. -/
def repliedIds (ourComments : List NDKEventIn) : List String :=
  ourComments.foldl
    (fun acc ev =>
      acc ++ ((ev.tags.filter isReplyMarkerTag).map (fun tag => tag.getD 1 (""))))
    []

/-- Post-fetch processing of `NostrClient.getUnansweredComments`
(src/index.ts, lines 650-691).  `pubkey` is the signer's public key and
`events` the fetched set; `limit` is only forwarded to the relay fetch filter
(see `buildUnansweredCommentsFilter`) and takes no part in this processing.
The code partitions into "ours"/"others", returns `[]` early when there are
no other-authored comments, and otherwise keeps the other-authored events
whose id was not pushed into `repliedIds`.  No sort and no truncation is
applied after filtering. -/
def getUnansweredComments (pubkey eventId : String) (limit : Option Nat)
    (events : List NDKEventIn) : List UnansweredComment :=
  let ourComments := events.filter (fun ev => ev.pubkey == pubkey)
  let othersComments := events.filter (fun ev => !(ev.pubkey == pubkey))
  if othersComments.length = 0 then []
  else
    let replied := repliedIds ourComments
    let unrepliedComments :=
      othersComments.filter (fun ev => !(replied.contains ev.id))
    unrepliedComments.map (mkUnansweredComment eventId)

/-- The spec's description of `get_unanswered_comments` output, stated in the
spec's own words for comparison with the code's `getUnansweredComments`:
every other-authored event whose id is not in the answered set, sorted
newest-first, truncated to the requested limit. -/
def specUnansweredComments (pubkey eventId : String) (limit : Nat)
    (events : List NDKEventIn) : List UnansweredComment :=
  let answered := repliedIds (events.filter (fun ev => ev.pubkey == pubkey))
  let others := events.filter
    (fun ev => !(ev.pubkey == pubkey) && !(answered.contains ev.id))
  ((jsSortNewestFirst (fun ev : NDKEventIn => tsKey ev.created_at) others).take
      limit).map (mkUnansweredComment eventId)

/-- Arguments of `postComment` (`PostCommentArgs` in src/types.ts). -/
structure PostCommentArgs where
  rootId : String
  parentId : Option String
  content : String
deriving DecidableEq

/-- The unsigned event assembled by an operation before signing: kind,
content and tags (the fields the repository sets). -/
structure BuiltEvent where
  kind : Nat
  content : String
  tags : List (List String)
deriving DecidableEq

/-- Result record of `postComment` (interface `PostedComment` in
src/types.ts). -/
structure PostedComment where
  id : String
  content : String
  pubkey : String
  rootId : String
  parentId : String
  tags : List (List String)
deriving DecidableEq

/-- Event construction of `NostrClient.postComment` (src/nostr-client.ts,
lines 145-161): `replyParentId = parentId ?? rootId`; tags are the fresh
event's empty tag list plus `["e", rootId, "", "root"]` and
`["e", replyParentId, "", "reply"]`. -/
def buildCommentEvent (args : PostCommentArgs) : BuiltEvent :=
  let replyParentId := args.parentId.getD args.rootId
  let baseTags : List (List String) := []
  { kind := 1, content := args.content,
    tags := baseTags ++
      [[("e"), args.rootId, (""), ("root")],
       [("e"), replyParentId, (""), ("reply")]] }

/-- Result assembly of `NostrClient.postComment` (src/nostr-client.ts, lines
178-185); `id` and `pubkey` are produced by the delegated signing step and
appear as inputs. -/
def postComment (args : PostCommentArgs) (id pubkey : String) : PostedComment :=
  let replyParentId := args.parentId.getD args.rootId
  let event := buildCommentEvent args
  { id := id, content := event.content, pubkey := pubkey,
    rootId := args.rootId, parentId := replyParentId, tags := event.tags }

/-- A JS plain object with string values, as an ordered key-value list
(JS object keys are unique and iterate in insertion order). -/
abbrev ProfileObj := List (String × String)

/-- JS property read `o[k]`: the value at the first matching key. -/
def objLookup (o : ProfileObj) (k : String) : Option String :=
  (o.find? (fun p => p.1 == k)).map Prod.snd

/-- JS `delete o[k]`: remove the key from the object. -/
def jsDeleteKey (o : ProfileObj) (k : String) : ProfileObj :=
  o.filter (fun p => !(p.1 == k))

/-- First half of the JS spread `{...a, ...b}`: the entries of `a` in order,
with the value overridden by `b` on key collision. -/
def spreadOverride (a b : ProfileObj) : ProfileObj :=
  a.map (fun p =>
    match objLookup b p.1 with
    | some v => (p.1, v)
    | none => p)

/-- Second half of the JS spread `{...a, ...b}`: the entries of `b` whose key
does not occur in `a`, in order. -/
def spreadRest (a b : ProfileObj) : ProfileObj :=
  b.filter (fun p => (objLookup a p.1).isNone)

/-- The JS object spread `{...a, ...b}`. -/
def jsSpreadMerge (a b : ProfileObj) : ProfileObj :=
  spreadOverride a b ++ spreadRest a b

/-- Content construction of `NostrClient.updateProfileMetadata`
(src/nostr-client.ts, lines 266-297): start from the fetched existing profile
(or the empty object when none was found or the fetch failed), delete the
NDK-internal `created_at` and `profileEvent` keys, and spread the
caller-supplied fields over it.  The published event content is the JSON
encoding of the returned object. -/
def updateProfileMetadata (existingProfile : Option ProfileObj)
    (metadata : ProfileObj) : ProfileObj :=
  let existingMetadata :=
    match existingProfile with
    | some p => jsDeleteKey (jsDeleteKey p ("created_at")) ("profileEvent")
    | none => []
  jsSpreadMerge existingMetadata metadata

/-- The `NostrErrorCode` enum of src/types.ts, lines 49-56. -/
inductive NostrErrorCode where
  | connection_error
  | post_error
  | not_connected
  | disconnect_error
  | zap_error
  | invalid_recipient
deriving DecidableEq

/-- A `NostrError` value: message, code and optional HTTP-like status. -/
structure NostrErrorE where
  message : String
  code : NostrErrorCode
  status : Option Nat
deriving DecidableEq

/-- Result record of `sendZap` (interface `ZappedNote` in src/types.ts). -/
structure ZappedNote where
  recipientPubkey : String
  amount : Nat
  invoice : String
deriving DecidableEq

/-- Control flow of `NostrClient.sendZap` (src/nostr-client.ts, lines
207-249).  `connected` is the wrapper's flag checked by `validateState`;
`resolvedPubkey` is the outcome of the delegated NIP-05 lookup
(`none` when the address does not resolve); `zapDeliverySucceeds` is the
outcome of the delegated `zapper.zap()` call.  An unresolved address throws a
plain `Error`, which the catch block wraps as
`NostrError("Failed to send zap", ZAP_ERROR, 500)`; on success the returned
record carries an empty `invoice` (the Lightning invoice is only logged by
the `lnPay` callback). -/
def sendZap (connected : Bool) (resolvedPubkey : Option String)
    (zapDeliverySucceeds : Bool) (amount : Nat) :
    Except NostrErrorE ZappedNote :=
  if connected = false then
    Except.error
      { message := ("Client is not connected"),
        code := NostrErrorCode.not_connected, status := some 400 }
  else
    match resolvedPubkey with
    | none =>
      Except.error
        { message := ("Failed to send zap"),
          code := NostrErrorCode.zap_error, status := some 500 }
    | some pk =>
      if zapDeliverySucceeds then
        Except.ok { recipientPubkey := pk, amount := amount, invoice := ("") }
      else
        Except.error
          { message := ("Failed to send zap"),
            code := NostrErrorCode.zap_error, status := some 500 }

/-- The transport-failure group of the error taxonomy (spec section 7, stated
in the spec's words for comparison): ConnectionError, PublishError, ZapError
and DisconnectError wrap transport-layer failures. -/
def transportWrapCodes : List NostrErrorCode :=
  [NostrErrorCode.connection_error, NostrErrorCode.post_error,
   NostrErrorCode.zap_error, NostrErrorCode.disconnect_error]

/-- A well-formed 64-character hexadecimal event id used as concrete input. -/
def sampleEventId : String := String.mk (List.replicate 64 ('a'))

def cexOtherEventOld : NDKEventIn :=
  { id := ("01"), pubkey := ("b"), content := ("first"), created_at := some 1,
    tags := [] }

def cexOtherEventNew : NDKEventIn :=
  { id := ("02"), pubkey := ("c"), content := ("second"),
    created_at := some 2, tags := [] }

def cexEvents : List NDKEventIn := [cexOtherEventOld, cexOtherEventNew]

def wOursEvent : NDKEventIn :=
  { id := ("03"), pubkey := ("s"), content := ("mine"), created_at := some 5,
    tags := [[("e"), ("01"), (""), ("reply")]] }

def wOtherEvent : NDKEventIn :=
  { id := ("02"), pubkey := ("b"), content := ("other"), created_at := some 4,
    tags := [] }

def wEvents : List NDKEventIn := [wOursEvent, wOtherEvent]

def wMixedEvents : List NDKEventIn :=
  [{ id := ("m1"), pubkey := ("p"), content := ("a"), created_at := none,
     tags := [] },
   { id := ("m2"), pubkey := ("q"), content := ("b"), created_at := some 0,
     tags := [] }]

/-- Two successive filters collapse into one conjunctive filter. -/
theorem filter_filter_and {α : Type} (p q : α → Bool) (l : List α) :
    (l.filter p).filter q = l.filter (fun a => p a && q a) := by
  induction l with
  | nil => rfl
  | cons a l ih =>
    by_cases hp : p a <;> by_cases hq : q a <;>
      simp [List.filter_cons, hp, hq, ih]

/-- Anything in the accumulator survives a fold that only appends. -/
theorem mem_foldl_append_init {α β : Type} (f : α → List β) (l : List α)
    (acc : List β) (x : β) (hx : x ∈ acc) :
    x ∈ l.foldl (fun a e => a ++ f e) acc := by
  induction l generalizing acc with
  | nil => exact hx
  | cons e l ih => exact ih (acc ++ f e) (List.mem_append_left _ hx)

/-- Anything contributed by a list element appears in the appending fold. -/
theorem mem_foldl_append {α β : Type} (f : α → List β) (l : List α)
    (acc : List β) (ev : α) (x : β) (hev : ev ∈ l) (hx : x ∈ f ev) :
    x ∈ l.foldl (fun a e => a ++ f e) acc := by
  induction l generalizing acc with
  | nil => cases hev
  | cons e l ih =>
    rcases List.mem_cons.mp hev with rfl | hev2
    · exact mem_foldl_append_init f l _ x (List.mem_append_right _ hx)
    · exact ih _ hev2

/-- A matching reply-marker tag of a listed event contributes its target id
to `repliedIds`. -/
theorem mem_repliedIds (l : List NDKEventIn) (ev : NDKEventIn)
    (tag : List String) (h1 : ev ∈ l) (h2 : tag ∈ ev.tags)
    (h3 : isReplyMarkerTag tag = true) :
    tag.getD 1 ("") ∈ repliedIds l := by
  unfold repliedIds
  refine mem_foldl_append _ l [] ev _ h1 ?_
  exact List.mem_map.mpr ⟨tag, List.mem_filter.mpr ⟨h2, h3⟩, rfl⟩

/-- Membership characterisation of `getUnansweredComments` output. -/
theorem exists_of_mem_getUnanswered {pubkey eventId : String}
    {limit : Option Nat} {events : List NDKEventIn} {c : UnansweredComment}
    (hc : c ∈ getUnansweredComments pubkey eventId limit events) :
    ∃ ev, ev ∈ events ∧ (ev.pubkey == pubkey) = false ∧
      (repliedIds (events.filter (fun e => e.pubkey == pubkey))).contains ev.id
        = false ∧
      c = mkUnansweredComment eventId ev := by
  unfold getUnansweredComments at hc
  dsimp only at hc
  split at hc
  · cases hc
  · rw [List.mem_map] at hc
    obtain ⟨ev, hev, rfl⟩ := hc
    rw [List.mem_filter] at hev
    obtain ⟨hev1, hq⟩ := hev
    rw [List.mem_filter] at hev1
    obtain ⟨hevents, hp⟩ := hev1
    refine ⟨ev, hevents, ?_, ?_, rfl⟩
    · simpa using hp
    · simpa using hq

/-- C1 (counterexample): at the concrete two-comment fetch with limit 1, the
code's `getUnansweredComments` output differs from the spec-mandated
`specUnansweredComments` output (sorted newest-first and truncated to the
limit): the code output has both comments in fetched (oldest-first) order. -/
theorem getUnanswered_unsorted_untruncated :
    getUnansweredComments ("s") ("root") (some 1) cexEvents
      ≠ specUnansweredComments ("s") ("root") 1 cexEvents := by decide

/-- C1 (amended): for every fetched event set, every signer and every
requested limit, `getUnansweredComments` returns exactly the events authored
by someone other than the signer whose id was not collected into
`repliedIds`, in fetched order: no newest-first sort and no truncation to
the limit happens after filtering. -/
theorem getUnanswered_matches_filter (pubkey eventId : String)
    (limit : Option Nat) (events : List NDKEventIn) :
    getUnansweredComments pubkey eventId limit events
      = (events.filter (fun ev =>
          !(ev.pubkey == pubkey) &&
          !((repliedIds (events.filter (fun e => e.pubkey == pubkey))).contains
              ev.id))).map (mkUnansweredComment eventId) := by
  unfold getUnansweredComments
  dsimp only
  split
  next h =>
    rw [List.length_eq_zero] at h
    rw [← filter_filter_and, h]
    rfl
  next h =>
    rw [filter_filter_and]

/-- C2: for every fetched comment set, an event id `x` appearing in position
1 of a 4-element tag `["e", x, relay, "reply"]` of one of the signer's own
authored comments — at any position in that comment's tag list — never
appears as the id of a `getUnansweredComments` output element. -/
theorem getUnanswered_excludes_replied (pubkey eventId x relay : String)
    (limit : Option Nat) (events : List NDKEventIn) (ours : NDKEventIn)
    (c : UnansweredComment) (hmem : ours ∈ events)
    (hpk : ours.pubkey = pubkey)
    (htag : [("e"), x, relay, ("reply")] ∈ ours.tags)
    (hc : c ∈ getUnansweredComments pubkey eventId limit events) :
    c.id ≠ x := by
  obtain ⟨ev, hev, hother, hnotrep, rfl⟩ := exists_of_mem_getUnanswered hc
  intro hid
  have hx : x ∈ repliedIds (events.filter (fun e => e.pubkey == pubkey)) := by
    have hours : ours ∈ events.filter (fun e => e.pubkey == pubkey) :=
      List.mem_filter.mpr ⟨hmem, by simp [hpk]⟩
    have hmm := mem_repliedIds _ ours [("e"), x, relay, ("reply")] hours htag
      rfl
    simpa using hmm
  have hidev : ev.id = x := hid
  have hcontains :
      (repliedIds (events.filter
        (fun e => e.pubkey == pubkey))).contains ev.id = true := by
    rw [hidev]
    simpa [List.contains] using List.elem_iff.mpr hx
  rw [hcontains] at hnotrep
  cases hnotrep

/-- C10: every element of `getUnansweredComments` output has its `rootId`
field equal to the `eventId` argument of the call and a `pubkey` different
from the signer's public key. -/
theorem getUnanswered_invariants (pubkey eventId : String)
    (limit : Option Nat) (events : List NDKEventIn) (c : UnansweredComment)
    (hc : c ∈ getUnansweredComments pubkey eventId limit events) :
    c.rootId = eventId ∧ c.pubkey ≠ pubkey := by
  obtain ⟨ev, hev, hother, hnotrep, rfl⟩ := exists_of_mem_getUnanswered hc
  refine ⟨rfl, ?_⟩
  intro h
  have hev2 : ev.pubkey = pubkey := h
  simp [hev2] at hother

/-- C7: for every fetched event set, `getReplies` output is sorted by
creation timestamp descending (newest first) under the `created_at ?? 0`
key; ties may appear in any relative order. -/
theorem getReplies_sorted_desc (events : List NDKEventIn) :
    List.Sorted (newestFirst (fun r : ReplyNote => tsKey r.created_at))
      (getReplies events) :=
  List.sorted_insertionSort _ _

/-- C8: in `getReplies` and `getLatestPosts`, an event lacking `created_at`
is ordered as if its timestamp were 0: once a missing-timestamp event
appears at position i of the output, every later position j > i carries
timestamp 0 when present — equivalently, every positively-timestamped event
precedes every missing-timestamp event. -/
theorem missing_created_at_sorts_last (events : List NDKEventIn) :
    (∀ (i j : Nat) (hi : i < (getReplies events).length)
        (hj : j < (getReplies events).length), i < j →
        ((getReplies events).get ⟨i, hi⟩).created_at = none →
        ∀ t : Nat,
          ((getReplies events).get ⟨j, hj⟩).created_at = some t → t = 0)
    ∧ (∀ (i j : Nat) (hi : i < (getLatestPosts events).length)
        (hj : j < (getLatestPosts events).length), i < j →
        ((getLatestPosts events).get ⟨i, hi⟩).created_at = none →
        ∀ t : Nat,
          ((getLatestPosts events).get ⟨j, hj⟩).created_at = some t → t = 0) := by
  constructor
  · intro i j hi hj hij hnone t ht
    have hs : List.Sorted
        (newestFirst (fun r : ReplyNote => tsKey r.created_at))
        (getReplies events) := by
      unfold getReplies jsSortNewestFirst
      exact List.sorted_insertionSort _ _
    have hrel := @List.Sorted.rel_get_of_lt ReplyNote _ _ hs ⟨i, hi⟩ ⟨j, hj⟩
      (Fin.mk_lt_mk.mpr hij)
    unfold newestFirst at hrel
    dsimp only at hrel
    rw [hnone, ht] at hrel
    simpa [tsKey] using hrel
  · intro i j hi hj hij hnone t ht
    have hs : List.Sorted
        (newestFirst (fun r : LatestPost => tsKey r.created_at))
        (getLatestPosts events) := by
      unfold getLatestPosts jsSortNewestFirst
      exact List.sorted_insertionSort _ _
    have hrel := @List.Sorted.rel_get_of_lt LatestPost _ _ hs ⟨i, hi⟩ ⟨j, hj⟩
      (Fin.mk_lt_mk.mpr hij)
    unfold newestFirst at hrel
    dsimp only at hrel
    rw [hnone, ht] at hrel
    simpa [tsKey] using hrel

/-- Witness for C2 at a concrete two-event fetch. -/
theorem getUnanswered_excludes_replied_witness :
    (wOursEvent ∈ wEvents) ∧ wOursEvent.pubkey = ("s")
    ∧ ([("e"), ("01"), (""), ("reply")] ∈ wOursEvent.tags)
    ∧ (mkUnansweredComment ("root") wOtherEvent
        ∈ getUnansweredComments ("s") ("root") none wEvents)
    ∧ (mkUnansweredComment ("root") wOtherEvent).id ≠ ("01") :=
  ⟨by decide, by decide, by decide, by decide,
    getUnanswered_excludes_replied ("s") ("root") ("01") ("") none wEvents
      wOursEvent (mkUnansweredComment ("root") wOtherEvent) (by decide)
      (by decide) (by decide) (by decide)⟩

/-- Witness for C10 at a concrete two-event fetch. -/
theorem getUnanswered_invariants_witness :
    (mkUnansweredComment ("root") wOtherEvent
        ∈ getUnansweredComments ("s") ("root") none wEvents)
    ∧ (mkUnansweredComment ("root") wOtherEvent).rootId = ("root")
    ∧ (mkUnansweredComment ("root") wOtherEvent).pubkey ≠ ("s") :=
  ⟨by decide,
    (getUnanswered_invariants ("s") ("root") none wEvents
      (mkUnansweredComment ("root") wOtherEvent) (by decide)).1,
    (getUnanswered_invariants ("s") ("root") none wEvents
      (mkUnansweredComment ("root") wOtherEvent) (by decide)).2⟩

/-- Witness for C8 at a concrete fetch with one missing timestamp. -/
theorem missing_created_at_sorts_last_witness :
    ((getReplies wMixedEvents).get ⟨0, by decide⟩).created_at = none
    ∧ ((getReplies wMixedEvents).get ⟨1, by decide⟩).created_at = some 0
    ∧ (0 : Nat) = 0 :=
  ⟨by decide, by decide,
    (missing_created_at_sorts_last wMixedEvents).1 0 1 (by decide) (by decide)
      (by decide) (by decide) 0 (by decide)⟩

theorem objLookup_cons (p : String × String) (o : ProfileObj) (k : String) :
    objLookup (p :: o) k = if p.1 == k then some p.2 else objLookup o k := by
  by_cases h : p.1 == k <;> simp [objLookup, List.find?_cons, h]

theorem objLookup_filter_key (o : ProfileObj) (q : String → Bool) (k : String) :
    objLookup (o.filter (fun p => q p.1)) k
      = if q k then objLookup o k else none := by
  induction o with
  | nil => cases hq : q k <;> simp [objLookup, hq]
  | cons p o ih =>
    by_cases hq : q p.1
    · rw [List.filter_cons_of_pos (by simpa using hq), objLookup_cons,
        objLookup_cons]
      by_cases hk : p.1 == k
      · have hk2 : p.1 = k := by simpa using hk
        subst hk2
        rw [if_pos hk, if_pos hq, if_pos hk]
      · rw [if_neg hk, if_neg hk, ih]
    · rw [List.filter_cons_of_neg (by simpa using hq), ih, objLookup_cons]
      by_cases hqk : q k
      · have hk : ¬(p.1 == k) := by
          intro hc
          have : p.1 = k := by simpa using hc
          subst this
          exact hq hqk
        rw [if_pos hqk, if_pos hqk, if_neg hk]
      · rw [if_neg hqk, if_neg hqk]

theorem objLookup_jsDeleteKey (o : ProfileObj) (kk k : String) (h : k ≠ kk) :
    objLookup (jsDeleteKey o kk) k = objLookup o k := by
  unfold jsDeleteKey
  rw [objLookup_filter_key o (fun s => !(s == kk)) k]
  simp [h]

theorem objLookup_spreadRest (a b : ProfileObj) (k : String) :
    objLookup (spreadRest a b) k
      = if (objLookup a k).isNone then objLookup b k else none :=
  objLookup_filter_key b (fun s => (objLookup a s).isNone) k

theorem objLookup_spreadOverride (a b : ProfileObj) (k : String) :
    objLookup (spreadOverride a b) k
      = match objLookup a k with
        | none => none
        | some v => some ((objLookup b k).getD v) := by
  induction a with
  | nil => simp [spreadOverride, objLookup]
  | cons p a ih =>
    cases hob : objLookup b p.1 with
    | none =>
      have hstep : spreadOverride (p :: a) b = p :: spreadOverride a b := by
        unfold spreadOverride
        rw [List.map_cons]
        rw [hob]
      rw [hstep, objLookup_cons, objLookup_cons]
      by_cases hk : p.1 == k
      · have hk2 : p.1 = k := by simpa using hk
        have hobk : objLookup b k = none := hk2 ▸ hob
        rw [if_pos hk, if_pos hk]
        dsimp only
        rw [hobk]
        rfl
      · rw [if_neg hk, if_neg hk, ih]
    | some v =>
      have hstep : spreadOverride (p :: a) b
          = (p.1, v) :: spreadOverride a b := by
        unfold spreadOverride
        rw [List.map_cons]
        rw [hob]
      rw [hstep, objLookup_cons, objLookup_cons]
      by_cases hk : p.1 == k
      · have hk2 : p.1 = k := by simpa using hk
        have hobk : objLookup b k = some v := hk2 ▸ hob
        rw [if_pos hk, if_pos hk]
        dsimp only
        rw [hobk]
        rfl
      · rw [if_neg hk, if_neg hk, ih]

theorem objLookup_jsSpreadMerge (a b : ProfileObj) (k : String) :
    objLookup (jsSpreadMerge a b) k = (objLookup b k).or (objLookup a k) := by
  unfold jsSpreadMerge
  have happ : objLookup (spreadOverride a b ++ spreadRest a b) k
      = (objLookup (spreadOverride a b) k).or
          (objLookup (spreadRest a b) k) := by
    unfold objLookup
    rw [List.find?_append]
    cases (spreadOverride a b).find? (fun p => p.1 == k) <;> simp [Option.or]
  rw [happ, objLookup_spreadOverride, objLookup_spreadRest]
  cases ha : objLookup a k <;> cases hb : objLookup b k <;> simp [Option.or]

/-- C4: `updateProfileMetadata` publishes the shallow right-biased merge:
for every existing profile object and caller-supplied field set, a key that
is not one of the NDK-internal keys the code strips (`created_at`,
`profileEvent`) resolves to the caller's value when supplied and to the
preserved existing value otherwise; in particular merging existing
`{name: A, about: X}` with input `{name: B}` publishes
`{name: B, about: X}`. -/
theorem updateProfile_merge_right_biased (existing metadata : ProfileObj)
    (k : String) (h1 : k ≠ ("created_at")) (h2 : k ≠ ("profileEvent")) :
    objLookup (updateProfileMetadata (some existing) metadata) k
      = (objLookup metadata k).or (objLookup existing k)
    ∧ updateProfileMetadata
        (some [(("name"), ("A")), (("about"), ("X"))]) [(("name"), ("B"))]
      = [(("name"), ("B")), (("about"), ("X"))] := by
  constructor
  · unfold updateProfileMetadata
    dsimp only
    rw [objLookup_jsSpreadMerge, objLookup_jsDeleteKey _ _ _ h2,
      objLookup_jsDeleteKey _ _ _ h1]
  · decide

/-- Witness for C4 at concrete profile objects. -/
theorem updateProfile_merge_right_biased_witness :
    ((("name") : String) ≠ ("created_at"))
    ∧ ((("name") : String) ≠ ("profileEvent"))
    ∧ (objLookup
        (updateProfileMetadata (some [(("about"), ("X"))]) [(("name"), ("B"))])
        ("name")
      = (objLookup [(("name"), ("B"))] ("name")).or
          (objLookup [(("about"), ("X"))] ("name"))
    ∧ updateProfileMetadata
        (some [(("name"), ("A")), (("about"), ("X"))]) [(("name"), ("B"))]
      = [(("name"), ("B")), (("about"), ("X"))]) :=
  ⟨by decide, by decide,
    updateProfile_merge_right_biased [(("about"), ("X"))] [(("name"), ("B"))]
      ("name") (by decide) (by decide)⟩

/-- C3: for every `postComment` call in which `parentId` is absent, the
constructed event's tags include both `["e", rootId, "", "root"]` and
`["e", rootId, "", "reply"]` (the parent defaults to `rootId`), and the
returned record's `parentId` equals `rootId`. -/
theorem postComment_default_parent (rootId content id pubkey : String) :
    ([("e"), rootId, (""), ("root")]
        ∈ (buildCommentEvent ⟨rootId, none, content⟩).tags)
    ∧ ([("e"), rootId, (""), ("reply")]
        ∈ (buildCommentEvent ⟨rootId, none, content⟩).tags)
    ∧ (postComment ⟨rootId, none, content⟩ id pubkey).parentId = rootId := by
  refine ⟨?_, ?_, rfl⟩ <;> simp [buildCommentEvent]

/-- C5: the zod limit validation of `get_replies` and
`get_unanswered_comments` rejects a limit above 500, below 1 and a
non-integer limit (safeParse failure, reported as an invalid-input protocol
error, never clamped), while an absent limit passes validation — and the
fetch filter then carries no limit at all: the code applies no default of
50, contradicting the claim (and the tool's own description). -/
theorem getReplies_limit_validation_no_default :
    checkLimitNumber 501 = false
    ∧ checkLimitNumber 0 = false
    ∧ checkLimitNumber ((1 : Rat)/2) = false
    ∧ checkGetRepliesArgs sampleEventId none = true
    ∧ checkGetUnansweredCommentsArgs sampleEventId none = true
    ∧ (buildRepliesFilter sampleEventId none).limit = none
    ∧ (buildUnansweredCommentsFilter sampleEventId none).limit = none := by
  refine ⟨?_, ?_, ?_, ?_, ?_, rfl, rfl⟩
  · simp [checkLimitNumber]
    norm_num
  · simp [checkLimitNumber]
  · simp [checkLimitNumber]
  · decide
  · decide

/-- C6 (counterexample): when the NIP-05 address does not resolve,
`sendZap` fails with code `zap_error` and status 500 — a member of the
transport-failure wrapper group of the error taxonomy — and not with the
input-classified `invalid_recipient` code. -/
theorem sendZap_unresolved_wrapped_as_zap_error :
    (sendZap true none true 21
      = Except.error
          { message := ("Failed to send zap"),
            code := NostrErrorCode.zap_error, status := some 500 })
    ∧ NostrErrorCode.zap_error ≠ NostrErrorCode.invalid_recipient
    ∧ NostrErrorCode.zap_error ∈ transportWrapCodes :=
  ⟨rfl, by decide, by decide⟩

/-- C6 (amended): when `sendZap` cannot resolve the supplied NIP-05
address, the call fails with the generic `NostrError("Failed to send zap",
zap_error, 500)` wrapper — the same classification as transport-level zap
failures; the `invalid_recipient` code defined in the enum is unused. -/
theorem sendZap_unresolved_zap_error (zapDeliverySucceeds : Bool)
    (amount : Nat) :
    sendZap true none zapDeliverySucceeds amount
      = Except.error
          { message := ("Failed to send zap"),
            code := NostrErrorCode.zap_error, status := some 500 } := rfl

/-- C9: every successful `sendZap` call, regardless of recipient and
amount, returns a record whose `invoice` field is the empty string: the
Lightning invoice is only logged by the `lnPay` callback, never returned. -/
theorem sendZap_invoice_always_empty (connected : Bool)
    (resolvedPubkey : Option String) (zapDeliverySucceeds : Bool)
    (amount : Nat) (r : ZappedNote)
    (h : sendZap connected resolvedPubkey zapDeliverySucceeds amount
      = Except.ok r) : r.invoice = ("") := by
  cases connected with
  | false => simp [sendZap] at h
  | true =>
    cases resolvedPubkey with
    | none => simp [sendZap] at h
    | some pk =>
      cases zapDeliverySucceeds with
      | false => simp [sendZap] at h
      | true =>
        simp [sendZap] at h
        subst h
        rfl

/-- Witness for C9 at a concrete successful zap. -/
theorem sendZap_invoice_always_empty_witness :
    (sendZap true (some ("pk")) true 21
      = Except.ok
          { recipientPubkey := ("pk"), amount := 21, invoice := ("") })
    ∧ ({ recipientPubkey := ("pk"), amount := 21,
         invoice := ("") } : ZappedNote).invoice = ("") :=
  ⟨rfl, sendZap_invoice_always_empty true (some ("pk")) true 21 _ rfl⟩
